import Mathlib

/-!
Shallow embedding of the assessment-tracker core of the Bioinformed Skill App
(src/app/crud/crud.py, with record shapes from src/app/models/models.py and
src/app/schemas/schemas.py), together with proofs checking the specification's
claims against it.

Modelling conventions:
- The SQLAlchemy session is modelled as an explicit record of tables; a row
  update keyed by primary key replaces the row in its table.  Each mutating
  operation returns the persisted state together with an Except value:
  a Python ValueError raised before commit leaves the state unchanged, so
  error branches return the input state.
- datetime.utcnow() is modelled as an explicit Nat parameter, one per call
  site; str(datetime) is modelled by timeStr.
- random.randint(0, n-1) in select_reviewer is modelled by an oracle
  parameter pick, reduced modulo the list length, which ranges over exactly
  the indices randint can return.
- Python dicts with string keys are association lists; assignment to an
  existing key overwrites in place, assignment to a fresh key appends.
- utils.verify_check is an external collaborator (its code is outside the
  modelled core) and is passed as a Boolean-valued function parameter.
-/

namespace SkillApp

/-- Values occurring in tracker-log dictionaries: strings and ints
(ids are non-negative, so Nat). -/
inductive JVal where
  | s : String → JVal
  | n : Nat → JVal
deriving DecidableEq, Repr

/-- A Python dict with string keys, as an association list preserving
insertion order. -/
abbrev Dict := List (String × JVal)

/-- Dictionary lookup: d[k] as an Option. -/
def dictGet (d : Dict) (k : String) : Option JVal :=
  (d.find? (fun p => p.1 == k)).map (fun p => p.2)

/-- Dictionary assignment d[k] = v: overwrites in place if the key exists,
appends otherwise (Python dict insertion-order semantics). -/
def dictSet (d : Dict) (k : String) (v : JVal) : Dict :=
  if d.any (fun p => p.1 == k) then
    d.map (fun p => if p.1 == k then (k, v) else p)
  else d ++ [(k, v)]

/-- String rendering of a datetime value (models str(datetime.utcnow())). -/
def timeStr (n : Nat) : String := toString n

/-- A row of the users table (columns unused by the modelled operations are
omitted). -/
structure UserR where
  id : Nat
  username : String
deriving DecidableEq, Repr

/-- A row of the reviewers table. -/
structure ReviewerR where
  id : Nat
  user_id : Nat
deriving DecidableEq, Repr

/-- A row of the assessments table (columns unused by the modelled operations
are omitted). -/
structure AssessmentR where
  id : Nat
  name : String
deriving DecidableEq, Repr

/-- A row of the assessment_tracker table. -/
structure TrackerEntry where
  id : Nat
  user_id : Nat
  assessment_id : Nat
  reviewer_id : Option Nat
  status : String
  latest_commit : String
  last_updated : Nat
  log : List Dict
deriving DecidableEq, Repr

/-- The InitRequest schema (src/app/schemas/schemas.py). -/
structure InitRequest where
  username : String
  assessment_name : String
  latest_commit : String
deriving DecidableEq, Repr

/-- The database state visible to the tracker operations. -/
structure DB where
  users : List UserR
  reviewers : List ReviewerR
  assessments : List AssessmentR
  trackers : List TrackerEntry
deriving DecidableEq, Repr

/-- crud.get_user_by_id: first users row with the given id, else ValueError. -/
def get_user_by_id (db : DB) (user_id : Nat) : Except String UserR :=
  match db.users.find? (fun u => u.id == user_id) with
  | none => .error "User ID does not exist"
  | some u => .ok u

/-- crud.get_reviewer_by_id: first reviewers row with the given id, else
ValueError. -/
def get_reviewer_by_id (db : DB) (reviewer_id : Nat) : Except String ReviewerR :=
  match db.reviewers.find? (fun r => r.id == reviewer_id) with
  | none => .error "Reviewer does not exist"
  | some r => .ok r

/-- crud.get_assessment_by_name: first assessments row with the given name,
else ValueError. -/
def get_assessment_by_name (db : DB) (assessment_name : String) :
    Except String AssessmentR :=
  match db.assessments.find? (fun a => a.name == assessment_name) with
  | none => .error "Assessment does not exist"
  | some a => .ok a

/-- crud.get_assessment_tracker_entry: first tracker row matching
(user_id, assessment_id), else ValueError. -/
def get_assessment_tracker_entry (db : DB) (user_id : Nat)
    (assessment_id : Nat) : Except String TrackerEntry :=
  match db.trackers.find?
      (fun t => t.user_id == user_id && t.assessment_id == assessment_id) with
  | none => .error "Assessment tracker entry unavailable."
  | some t => .ok t

/-- crud.get_assessment_tracker_entry_by_id: first tracker row with the given
primary key, else ValueError. -/
def get_assessment_tracker_entry_by_id (db : DB) (entry_id : Nat) :
    Except String TrackerEntry :=
  match db.trackers.find? (fun t => t.id == entry_id) with
  | none => .error "Assessment tracker entry unavailable."
  | some t => .ok t

/-- Persisting a mutated ORM row: every tracker row sharing the primary key of
e is replaced by e (models db.add of a loaded row followed by db.commit). -/
def updateTracker (db : DB) (e : TrackerEntry) : DB :=
  { db with trackers := db.trackers.map (fun t => if t.id == e.id then e else t) }

/-- crud.init_assessment_tracker: resolves the assessment by name, rejects if a
tracker entry already exists for (user, assessment) — branching, as the source
does, on the error-message string — and otherwise inserts a fresh entry with
status Initiated and a one-element log.  newId models the store-assigned
primary key; now1/now2 the two datetime.utcnow() calls. -/
def init_assessment_tracker (db : DB) (init_request : InitRequest)
    (user_id : Nat) (newId : Nat) (now1 now2 : Nat) :
    DB × Except String Bool :=
  match get_assessment_by_name db init_request.assessment_name with
  | .error e => (db, .error e)
  | .ok assessment =>
    match get_assessment_tracker_entry db user_id assessment.id with
    | .ok _ => (db, .error "Assessment tracker entry already exists.")
    | .error e =>
      if e != "Assessment tracker entry unavailable." then (db, .error e)
      else
        let db_obj : TrackerEntry :=
          { id := newId
            user_id := user_id
            assessment_id := assessment.id
            reviewer_id := none
            status := "Initiated"
            latest_commit := init_request.latest_commit
            last_updated := now1
            log := [[("status", JVal.s "Initiated"),
                     ("timestamp", JVal.s (timeStr now2)),
                     ("commit", JVal.s init_request.latest_commit)]] }
        ({ db with trackers := db.trackers ++ [db_obj] }, .ok true)

/-- crud.select_reviewer: collects the ids of reviewers whose user_id equals
the tracker entry's user_id (invalid_rev), keeps the ids of all other
reviewers (valid_reviewers), and returns the reviewer row for a randomly
chosen valid id.  pick models the random.randint draw. -/
def select_reviewer (db : DB) (assessment_tracker_entry : TrackerEntry)
    (pick : Nat) : Except String ReviewerR :=
  let invalid_rev :=
    (db.reviewers.filter
      (fun r => r.user_id == assessment_tracker_entry.user_id)).map
      (fun r => r.id)
  let valid_reviewers :=
    (db.reviewers.filter (fun r => !(invalid_rev.contains r.id))).map
      (fun r => r.id)
  if h : valid_reviewers.length = 0 then
    .error "No reviewer available. Please contact the administrator."
  else
    let random_id := valid_reviewers.get
      ⟨pick % valid_reviewers.length,
       Nat.mod_lt _ (Nat.pos_of_ne_zero h)⟩
    match get_reviewer_by_id db random_id with
    | .ok r => .ok r
    | .error e =>
      .error ("Error selecting reviewer. Contact the administrators. Error string: " ++ e)

/-- crud.update_assessment_log: fetches the tracker entry by id, stamps
last_updated and latest_commit, and appends one log record built from
update_logs with its commit and timestamp keys set. -/
def update_assessment_log (db : DB) (entry_id : Nat) (latest_commit : String)
    (update_logs : Dict) (now : Nat) : DB × Except String Bool :=
  match get_assessment_tracker_entry_by_id db entry_id with
  | .error e => (db, .error e)
  | .ok t =>
    let record :=
      dictSet (dictSet update_logs "commit" (JVal.s latest_commit))
        "timestamp" (JVal.s (timeStr now))
    let t2 : TrackerEntry :=
      { t with
        last_updated := now
        latest_commit := latest_commit
        log := t.log ++ [record] }
    (updateTracker db t2, .ok true)

/-- The reviewer-info dict passed to crud.assign_reviewer by its callers:
{ reviewer_id, reviewer_username }. -/
structure ReviewerInfo where
  reviewer_id : Nat
  reviewer_username : String
deriving DecidableEq, Repr

/-- The reviewer-info record rendered as the dict the source deep-copies into
the log. -/
def reviewerInfoDict (info : ReviewerInfo) : Dict :=
  [("reviewer_id", JVal.n info.reviewer_id),
   ("reviewer_username", JVal.s info.reviewer_username)]

/-- crud.assign_reviewer: unconditionally sets reviewer_id, sets status to
Under review, stamps last_updated, commits, then appends a log record via
update_assessment_log. -/
def assign_reviewer (db : DB) (assessment_tracker_entry : TrackerEntry)
    (reviewer_info : ReviewerInfo) (now1 now2 : Nat) :
    DB × Except String Bool :=
  let e1 : TrackerEntry :=
    { assessment_tracker_entry with
      reviewer_id := some reviewer_info.reviewer_id
      status := "Under review"
      last_updated := now1 }
  let db1 := updateTracker db e1
  update_assessment_log db1 assessment_tracker_entry.id
    assessment_tracker_entry.latest_commit (reviewerInfoDict reviewer_info)
    now2

/-- crud.approve_assessment: ordered checks — self-review, entry lookup,
reviewer assigned, under review, commit checks (external verify_check
collaborator), recorded-reviewer username match — then sets status Approved
and appends the approval log record carrying the passed reviewer's id. -/
def approve_assessment (db : DB) (trainee : UserR) (reviewer : ReviewerR)
    (reviewer_username : String) (assessment : AssessmentR)
    (verify_check : TrackerEntry → Bool) (now1 now2 : Nat) :
    DB × Except String Bool :=
  if reviewer.user_id == trainee.id then
    (db, .error "Reviewer cannot be the same as the trainee.")
  else
    match get_assessment_tracker_entry db trainee.id assessment.id with
    | .error e => (db, .error e)
    | .ok t =>
      match t.reviewer_id with
      | none => (db, .error "No reviewer is assigned to the assessment.")
      | some rid =>
        if t.status != "Under review" then
          (db, .error "Assessment is not under review.")
        else if !(verify_check t) then
          (db, .error "Last commit checks failed.")
        else
          match get_reviewer_by_id db rid with
          | .error e => (db, .error e)
          | .ok reviewer_real =>
            match get_user_by_id db reviewer_real.user_id with
            | .error e => (db, .error e)
            | .ok reviewer_real_user =>
              if reviewer_real_user.username != reviewer_username then
                (db, .error "Reviewer is not the same as the reviewer assigned to the assessment.")
              else
                let latest_commit := t.latest_commit
                let log : Dict :=
                  [("timestamp", JVal.s (timeStr now2)),
                   ("status", JVal.s "Approved"),
                   ("commit", JVal.s latest_commit),
                   ("Reviewer", JVal.n reviewer.id)]
                let t2 : TrackerEntry :=
                  { t with
                    status := "Approved"
                    last_updated := now1
                    log := t.log ++ [log] }
                (updateTracker db t2, .ok true)

/-- A datetime value produced by parsing an external timestamp string. -/
structure DateTime where
  year : Nat
  month : Nat
  day : Nat
  hour : Nat
  minute : Nat
  second : Nat
  microsecond : Nat
deriving DecidableEq, Repr

/-- A stored badge column value: either a plain string or a parsed datetime
(the only two shapes the sync loop produces). -/
inductive FieldVal where
  | s : String → FieldVal
  | dt : DateTime → FieldVal
deriving DecidableEq, Repr

/-- A row of the badges table: arbitrary external fields, as an association
list (models.Badges is constructed from the record's own keys). -/
abbrev BadgeRow := List (String × FieldVal)

/-- A raw badge record from the external catalog (badges.json()['result']). -/
abbrev ExtRec := List (String × JVal)

/-- Takes up to n leading decimal digits off a character list. -/
def takeDigitsUpTo : Nat → List Char → List Nat × List Char
  | 0, cs => ([], cs)
  | _ + 1, [] => ([], [])
  | n + 1, c :: cs =>
    if c.isDigit then
      let (ds, rest) := takeDigitsUpTo n cs
      ((c.toNat - '0'.toNat) :: ds, rest)
    else ([], c :: cs)

/-- Value of a digit list read most-significant first. -/
def digitsVal (ds : List Nat) : Nat := ds.foldl (fun a d => a * 10 + d) 0

/-- Parses a 1-or-2-digit numeric field with the given validity predicates
for the two-digit and one-digit alternatives (mirrors the strptime field
regexes, where the following separator rejects any leftover digit). -/
def parseNum2 (validTwo validOne : Nat → Bool) (cs : List Char) :
    Option (Nat × List Char) :=
  match takeDigitsUpTo 2 cs with
  | ([d1, d2], rest) =>
    if validTwo (d1 * 10 + d2) then some (d1 * 10 + d2, rest) else none
  | ([d1], rest) => if validOne d1 then some (d1, rest) else none
  | _ => none

/-- Parses the exactly-4-digit year field of strptime's %Y directive. -/
def parseYear (cs : List Char) : Option (Nat × List Char) :=
  match takeDigitsUpTo 4 cs with
  | ([d1, d2, d3, d4], rest) =>
    some (digitsVal [d1, d2, d3, d4], rest)
  | _ => none

/-- Parses strptime's %f directive: one to six digits, right-padded with
zeros to microseconds. -/
def parseFrac (cs : List Char) : Option (Nat × List Char) :=
  match takeDigitsUpTo 6 cs with
  | ([], _) => none
  | (ds, rest) => some (digitsVal ds * 10 ^ (6 - ds.length), rest)

/-- Consumes one expected literal character. -/
def expectChar (c : Char) (cs : List Char) : Option (List Char) :=
  match cs with
  | [] => none
  | c2 :: rest => if c2 == c then some rest else none

/-- Number of days in a month, with Gregorian leap years (datetime's
day-of-month validation). -/
def daysInMonth (y m : Nat) : Nat :=
  if m == 2 then
    if (y % 4 == 0 && y % 100 != 0) || y % 400 == 0 then 29 else 28
  else if m == 4 || m == 6 || m == 9 || m == 11 then 30
  else 31

/-- Shared date-and-time prefix of both accepted formats:
%Y-%m-%dT%H:%M:%S with datetime's range validation. -/
def parseStamp (cs : List Char) :
    Option (Nat × Nat × Nat × Nat × Nat × Nat × List Char) := do
  let (y, cs) ← parseYear cs
  let cs ← expectChar '-' cs
  let (mo, cs) ← parseNum2 (fun v => 1 ≤ v && v ≤ 12) (fun v => 1 ≤ v) cs
  let cs ← expectChar '-' cs
  let (d, cs) ← parseNum2 (fun v => 1 ≤ v && v ≤ 31) (fun v => 1 ≤ v) cs
  let cs ← expectChar 'T' cs
  let (h, cs) ← parseNum2 (fun v => v ≤ 23) (fun _ => true) cs
  let cs ← expectChar ':' cs
  let (mi, cs) ← parseNum2 (fun v => v ≤ 59) (fun _ => true) cs
  let cs ← expectChar ':' cs
  let (s, cs) ← parseNum2 (fun v => v ≤ 59) (fun _ => true) cs
  if 1 ≤ y && d ≤ daysInMonth y mo then
    some (y, mo, d, h, mi, s, cs)
  else none

/-- datetime.strptime(v, "%Y-%m-%dT%H:%M:%S.%fZ") as an Option (None models
ValueError).  The whole string must be consumed. -/
def strptimeFrac (v : String) : Option DateTime := do
  let (y, mo, d, h, mi, s, cs) ← parseStamp v.data
  let cs ← expectChar '.' cs
  let (f, cs) ← parseFrac cs
  let cs ← expectChar 'Z' cs
  match cs with
  | [] => some ⟨y, mo, d, h, mi, s, f⟩
  | _ => none

/-- datetime.strptime(v, "%Y-%m-%dT%H:%M:%SZ") as an Option (None models
ValueError).  The whole string must be consumed. -/
def strptimeNoFrac (v : String) : Option DateTime := do
  let (y, mo, d, h, mi, s, cs) ← parseStamp v.data
  let cs ← expectChar 'Z' cs
  match cs with
  | [] => some ⟨y, mo, d, h, mi, s, 0⟩
  | _ => none

/-- str(v) for an external JSON value. -/
def pyStr : JVal → String
  | .s v => v
  | .n v => toString v

/-- The per-field conversion attempt of the sync loop: try the
with-fractional-seconds format, on ValueError try the without-fractional
format, on a second ValueError leave the string untouched. -/
def convertField (v : String) : FieldVal :=
  match strptimeFrac v with
  | some d => .dt d
  | none =>
    match strptimeNoFrac v with
    | some d => .dt d
    | none => .s v

/-- The fields dict built for one catalog record: every value coerced with
str(), then run through the datetime-conversion attempt. -/
def wrangleFields (badge : ExtRec) : BadgeRow :=
  badge.map (fun p => (p.1, convertField (pyStr p.2)))

/-- Badge-row column lookup. -/
def rowGet (r : BadgeRow) (k : String) : Option FieldVal :=
  (r.find? (fun p => p.1 == k)).map (fun p => p.2)

/-- Sets one column of a badge row (overwrite in place, else append). -/
def rowSet (r : BadgeRow) (k : String) (v : FieldVal) : BadgeRow :=
  if r.any (fun p => p.1 == k) then
    r.map (fun p => if p.1 == k then (k, v) else p)
  else r ++ [(k, v)]

/-- Bulk UPDATE of a row with the given column values; columns not listed
are kept. -/
def rowMerge (row fields : BadgeRow) : BadgeRow :=
  fields.foldl (fun r p => rowSet r p.1 p.2) row

/-- Equality test between a stored column value and a Python value, as the
filter_by(name=badge['name']) comparison evaluates it: only equal strings
compare equal (a datetime or an int never equals a string). -/
def fvEqJv : FieldVal → JVal → Bool
  | .s a, .s b => a == b
  | _, _ => false

/-- Whether a stored badge row matches filter_by(name=nameVal). -/
def badgeNameMatches (nameVal : JVal) (row : BadgeRow) : Bool :=
  match rowGet row "name" with
  | some fv => fvEqJv fv nameVal
  | none => false

/-- The body of crud.sync_badges' per-record loop, processing records in
order with the running record index.  failAt is the store-failure oracle:
failAt i = some msg means the store raises msg while committing record i;
the except-branch then rolls the in-flight transaction back (the record's
own uncommitted change) and re-raises, while every earlier record's commit
has already been persisted.  A record without a name key raises KeyError at
badge['name'], caught by the same except branch. -/
def sync_badges_go (failAt : Nat → Option String) :
    Nat → List ExtRec → List BadgeRow → List BadgeRow × Option String
  | _, [], db => (db, none)
  | i, badge :: rest, db =>
    match dictGet badge "name" with
    | none => (db, some "KeyError: name")
    | some nameVal =>
      let fields := wrangleFields badge
      match failAt i with
      | some msg => (db, some msg)
      | none =>
        if (db.find? (badgeNameMatches nameVal)).isNone then
          sync_badges_go failAt (i + 1) rest (db ++ [fields])
        else
          sync_badges_go failAt (i + 1) rest
            (db.map (fun row =>
              if badgeNameMatches nameVal row then rowMerge row fields
              else row))

/-- crud.sync_badges: iterates over the fetched catalog, upserting each
record into the badges table — keyed by filter_by on the record's name —
and committing after every record.  Returns the persisted badges table and
the re-raised error, if any. -/
def sync_badges (failAt : Nat → Option String) (badgelst : List ExtRec)
    (db : List BadgeRow) : List BadgeRow × Option String :=
  sync_badges_go failAt 0 badgelst db

/-! Helper lemmas shared by the claim proofs. -/

/-- find? commutes with a map that preserves the predicate. -/
theorem find?_map_pred {α : Type} (f : α → α) (p : α → Bool) (l : List α)
    (h : ∀ x, p (f x) = p x) :
    (l.map f).find? p = (l.find? p).map f := by
  induction l with
  | nil => rfl
  | cons a t ih =>
    simp only [List.map_cons, List.find?]
    rw [h a]
    cases hp : p a
    · simpa using ih
    · rfl

/-- find? over an append when the left part already finds a hit. -/
theorem find?_append_some {α : Type} (p : α → Bool) (l l' : List α) (a : α)
    (h : l.find? p = some a) : (l ++ l').find? p = some a := by
  induction l with
  | nil => simp [List.find?] at h
  | cons b t ih =>
    simp only [List.cons_append, List.find?] at h ⊢
    cases hp : p b
    · rw [hp] at h
      simpa using ih h
    · rw [hp] at h
      simpa using h

/-- find? over an append when the left part finds nothing. -/
theorem find?_append_none {α : Type} (p : α → Bool) (l l' : List α)
    (h : l.find? p = none) : (l ++ l').find? p = l'.find? p := by
  induction l with
  | nil => simp
  | cons b t ih =>
    simp only [List.cons_append, List.find?] at h ⊢
    cases hp : p b
    · rw [hp] at h
      simpa using ih h
    · rw [hp] at h
      simp at h

/-- Rank of a tracker status in the Initiated, Under review, Approved order. -/
def statusRank : String → Nat
  | "Under review" => 1
  | "Approved" => 2
  | _ => 0

/-- Every status rank is at most the rank of Approved. -/
theorem statusRank_le_two (s : String) : statusRank s ≤ 2 := by
  unfold statusRank
  split <;> omega

/-- C5: approve_assessment fails with the self-review error whenever the
reviewer's user id equals the trainee's id, for every database state —
the self-review check runs before the tracker entry is even resolved, and
the session is left unchanged. -/
theorem approve_selfreview_first (db : DB) (trainee : UserR)
    (reviewer : ReviewerR) (reviewer_username : String)
    (assessment : AssessmentR) (verify_check : TrackerEntry → Bool)
    (now1 now2 : Nat) (h : reviewer.user_id = trainee.id) :
    approve_assessment db trainee reviewer reviewer_username assessment
      verify_check now1 now2 =
      (db, .error "Reviewer cannot be the same as the trainee.") := by
  simp [approve_assessment, h]

/-- C5 witness: a concrete self-review call, against an entry that is already
Approved with failing checks, still reports the self-review error. -/
theorem approve_selfreview_first_witness :
    (⟨7, 7⟩ : ReviewerR).user_id = (⟨7, "alice"⟩ : UserR).id ∧
    approve_assessment
      ⟨[⟨7, "alice"⟩], [⟨3, 7⟩],
       [⟨1, "Python I"⟩],
       [⟨11, 7, 1, some 3, "Approved", "abc123", 0, []⟩]⟩
      ⟨7, "alice"⟩ ⟨3, 7⟩ "alice" ⟨1, "Python I"⟩ (fun _ => false) 5 6 =
      (⟨[⟨7, "alice"⟩], [⟨3, 7⟩],
        [⟨1, "Python I"⟩],
        [⟨11, 7, 1, some 3, "Approved", "abc123", 0, []⟩]⟩,
       .error "Reviewer cannot be the same as the trainee.") :=
  ⟨rfl,
   approve_selfreview_first _ _ _ _ _ _ _ _ rfl⟩

/-- C4: init_assessment_tracker (1) fails with the already-exists error and
leaves the session unchanged whenever a tracker entry exists for the
(user, assessment) pair; (2) otherwise inserts exactly one new entry with
status Initiated and a one-element log {status, timestamp, commit}; and
(3) a second call on the same pair after a successful first call always
fails with the already-exists error, unchanged session. -/
theorem init_tracker_already_exists (db : DB) (req : InitRequest)
    (uid newId n1 n2 : Nat) :
    (∀ (a : AssessmentR) (t : TrackerEntry),
       get_assessment_by_name db req.assessment_name = .ok a →
       get_assessment_tracker_entry db uid a.id = .ok t →
       init_assessment_tracker db req uid newId n1 n2 =
         (db, .error "Assessment tracker entry already exists.")) ∧
    (∀ a : AssessmentR,
       get_assessment_by_name db req.assessment_name = .ok a →
       get_assessment_tracker_entry db uid a.id =
         .error "Assessment tracker entry unavailable." →
       init_assessment_tracker db req uid newId n1 n2 =
         ({ db with trackers := db.trackers ++
            [{ id := newId, user_id := uid, assessment_id := a.id,
               reviewer_id := none, status := "Initiated",
               latest_commit := req.latest_commit, last_updated := n1,
               log := [[("status", JVal.s "Initiated"),
                        ("timestamp", JVal.s (timeStr n2)),
                        ("commit", JVal.s req.latest_commit)]] }] },
          .ok true)) ∧
    (∀ (db' : DB) (newId2 n1' n2' : Nat),
       init_assessment_tracker db req uid newId n1 n2 = (db', .ok true) →
       init_assessment_tracker db' req uid newId2 n1' n2' =
         (db', .error "Assessment tracker entry already exists.")) := by
  refine ⟨?_, ?_, ?_⟩
  · intro a t ha ht
    simp [init_assessment_tracker, ha, ht]
  · intro a ha ht
    simp [init_assessment_tracker, ha, ht]
  · intro db' newId2 n1' n2' h
    unfold init_assessment_tracker at h
    cases ha : get_assessment_by_name db req.assessment_name with
    | error e => rw [ha] at h; simp at h
    | ok a =>
      rw [ha] at h
      dsimp only at h
      cases ht : get_assessment_tracker_entry db uid a.id with
      | ok t => rw [ht] at h; simp at h
      | error e =>
        rw [ht] at h
        dsimp only at h
        by_cases he : e = "Assessment tracker entry unavailable."
        · subst he
          simp only [bne_self_eq_false, Bool.false_eq_true, if_false,
            Prod.mk.injEq] at h
          obtain ⟨hdb, -⟩ := h
          subst hdb
          have ha' : get_assessment_by_name
              { db with trackers := db.trackers ++
                [{ id := newId, user_id := uid, assessment_id := a.id,
                   reviewer_id := none, status := "Initiated",
                   latest_commit := req.latest_commit, last_updated := n1,
                   log := [[("status", JVal.s "Initiated"),
                            ("timestamp", JVal.s (timeStr n2)),
                            ("commit", JVal.s req.latest_commit)]] }] }
              req.assessment_name = .ok a := ha
          have hfind : db.trackers.find?
              (fun t => t.user_id == uid && t.assessment_id == a.id) =
              none := by
            unfold get_assessment_tracker_entry at ht
            cases hf : db.trackers.find?
                (fun t => t.user_id == uid && t.assessment_id == a.id) with
            | none => rfl
            | some t => rw [hf] at ht; simp at ht
          unfold init_assessment_tracker
          rw [ha']
          unfold get_assessment_tracker_entry
          simp only [DB.mk.injEq]
          rw [find?_append_none _ _ _ hfind]
          simp
        · have hne : (e != "Assessment tracker entry unavailable.") = true := by
            simpa using he
          rw [if_pos hne] at h
          simp at h

/-- C4 witness: with one assessment and no tracker entries, a first call
creates the Initiated entry, and the second call on the same pair fails with
the already-exists error leaving the session unchanged. -/
theorem init_tracker_already_exists_witness :
    get_assessment_by_name ⟨[], [], [⟨1, "Python I"⟩], []⟩ "Python I" =
      .ok ⟨1, "Python I"⟩ ∧
    get_assessment_tracker_entry ⟨[], [], [⟨1, "Python I"⟩], []⟩ 42 1 =
      .error "Assessment tracker entry unavailable." ∧
    init_assessment_tracker ⟨[], [], [⟨1, "Python I"⟩], []⟩
      ⟨"alice", "Python I", "abc123"⟩ 42 11 5 6 =
      (⟨[], [], [⟨1, "Python I"⟩],
        [⟨11, 42, 1, none, "Initiated", "abc123", 5,
          [[("status", JVal.s "Initiated"),
            ("timestamp", JVal.s (timeStr 6)),
            ("commit", JVal.s "abc123")]]⟩]⟩, .ok true) ∧
    init_assessment_tracker
      ⟨[], [], [⟨1, "Python I"⟩],
       [⟨11, 42, 1, none, "Initiated", "abc123", 5,
         [[("status", JVal.s "Initiated"),
           ("timestamp", JVal.s (timeStr 6)),
           ("commit", JVal.s "abc123")]]⟩]⟩
      ⟨"alice", "Python I", "abc123"⟩ 42 12 7 8 =
      (⟨[], [], [⟨1, "Python I"⟩],
        [⟨11, 42, 1, none, "Initiated", "abc123", 5,
          [[("status", JVal.s "Initiated"),
            ("timestamp", JVal.s (timeStr 6)),
            ("commit", JVal.s "abc123")]]⟩]⟩,
       .error "Assessment tracker entry already exists.") :=
  ⟨rfl, rfl,
   (init_tracker_already_exists ⟨[], [], [⟨1, "Python I"⟩], []⟩
      ⟨"alice", "Python I", "abc123"⟩ 42 11 5 6).2.1 ⟨1, "Python I"⟩ rfl rfl,
   (init_tracker_already_exists ⟨[], [], [⟨1, "Python I"⟩], []⟩
      ⟨"alice", "Python I", "abc123"⟩ 42 11 5 6).2.2 _ 12 7 8
     ((init_tracker_already_exists ⟨[], [], [⟨1, "Python I"⟩], []⟩
        ⟨"alice", "Python I", "abc123"⟩ 42 11 5 6).2.1 ⟨1, "Python I"⟩ rfl rfl)⟩

/-- C7: whenever select_reviewer returns a reviewer, that reviewer's user id
differs from the tracker entry's user id, and the returned id is drawn from
the set of all reviewer ids minus the ids mapped from the trainee's own
user id. -/
theorem select_reviewer_no_self (db : DB) (entry : TrackerEntry) (pick : Nat)
    (r : ReviewerR) (h : select_reviewer db entry pick = .ok r) :
    r.user_id ≠ entry.user_id ∧
    r.id ∈ db.reviewers.map (fun x => x.id) ∧
    r.id ∉ (db.reviewers.filter
      (fun x => x.user_id == entry.user_id)).map (fun x => x.id) := by
  unfold select_reviewer at h
  dsimp only at h
  split at h
  · exact absurd h (by simp)
  next hlen =>
    split at h
    next rr hget =>
      have hrr : rr = r := by simpa using h
      subst hrr
      unfold get_reviewer_by_id at hget
      split at hget
      next hf => simp at hget
      next r2 hf =>
        have hr2 : r2 = rr := by simpa using hget
        subst hr2
        have hmem := List.mem_of_find?_eq_some hf
        have hid := List.find?_some hf
        rw [beq_iff_eq] at hid
        have hvalid : r2.id ∈ (db.reviewers.filter
            (fun x => !((db.reviewers.filter
              (fun y => y.user_id == entry.user_id)).map
                (fun y => y.id)).contains x.id)).map (fun x => x.id) := by
          rw [hid]
          exact List.get_mem _ _ _
        rw [List.mem_map] at hvalid
        obtain ⟨x, hxmem, hxid⟩ := hvalid
        rw [List.mem_filter] at hxmem
        obtain ⟨-, hxnot⟩ := hxmem
        rw [Bool.not_eq_true'] at hxnot
        rw [hxid] at hxnot
        have hnotin : r2.id ∉ (db.reviewers.filter
            (fun y => y.user_id == entry.user_id)).map (fun y => y.id) := by
          intro hin
          have hel : List.elem r2.id ((db.reviewers.filter
              (fun y => y.user_id == entry.user_id)).map (fun y => y.id)) =
              true := List.elem_iff.mpr hin
          have hco : List.elem r2.id ((db.reviewers.filter
              (fun y => y.user_id == entry.user_id)).map (fun y => y.id)) =
              false := hxnot
          rw [hel] at hco
          cases hco
        refine ⟨?_, List.mem_map_of_mem _ hmem, hnotin⟩
        intro huser
        exact hnotin (List.mem_map_of_mem _
          (List.mem_filter.mpr ⟨hmem, by simp [huser]⟩))
    next e hget => simp at h

/-- C7 witness: with reviewers {id 1 of user 10, id 2 of user 20} and a
tracker entry of user 10, selection returns reviewer 2, whose user id is not
the trainee's. -/
theorem select_reviewer_no_self_witness :
    select_reviewer ⟨[], [⟨1, 10⟩, ⟨2, 20⟩], [], []⟩
      ⟨11, 10, 1, none, "Initiated", "c", 0, []⟩ 0 = .ok ⟨2, 20⟩ ∧
    (⟨2, 20⟩ : ReviewerR).user_id ≠
      (⟨11, 10, 1, none, "Initiated", "c", 0, []⟩ : TrackerEntry).user_id :=
  ⟨rfl,
   (select_reviewer_no_self ⟨[], [⟨1, 10⟩, ⟨2, 20⟩], [], []⟩
      ⟨11, 10, 1, none, "Initiated", "c", 0, []⟩ 0 ⟨2, 20⟩ rfl).1⟩

/-- Tracker lookup after persisting a row update: the first row with the
probed id, with the replacement applied. -/
theorem trackers_find?_updateTracker (db : DB) (e : TrackerEntry) (j : Nat) :
    (updateTracker db e).trackers.find? (fun t => t.id == j) =
      (db.trackers.find? (fun t => t.id == j)).map
        (fun t => if t.id == e.id then e else t) := by
  unfold updateTracker
  exact find?_map_pred _ _ _ (by
    intro x
    by_cases hx : x.id = e.id
    · simp [hx]
    · simp [beq_iff_eq, hx])

/-- C9: for an existing tracker entry, update_assessment_log succeeds,
updates exactly latest_commit and last_updated, appends exactly one log
record merging the caller's extra fields with the new commit and timestamp,
leaves every other field of the entry (id, user_id, assessment_id,
reviewer_id, status) unchanged, and leaves every other entry and every
other table unchanged. -/
theorem update_log_frame (db : DB) (entry_id : Nat) (latest_commit : String)
    (update_logs : Dict) (now : Nat) (t : TrackerEntry)
    (h : get_assessment_tracker_entry_by_id db entry_id = .ok t) :
    (update_assessment_log db entry_id latest_commit update_logs now).2 =
      .ok true ∧
    get_assessment_tracker_entry_by_id
      (update_assessment_log db entry_id latest_commit update_logs now).1
      entry_id = .ok
        { t with
          last_updated := now
          latest_commit := latest_commit
          log := t.log ++ [dictSet (dictSet update_logs "commit"
            (JVal.s latest_commit)) "timestamp" (JVal.s (timeStr now))] } ∧
    (∀ j, j ≠ entry_id →
      get_assessment_tracker_entry_by_id
        (update_assessment_log db entry_id latest_commit update_logs now).1
        j = get_assessment_tracker_entry_by_id db j) ∧
    (update_assessment_log db entry_id latest_commit update_logs now).1.users
      = db.users ∧
    (update_assessment_log db entry_id latest_commit update_logs
      now).1.reviewers = db.reviewers ∧
    (update_assessment_log db entry_id latest_commit update_logs
      now).1.assessments = db.assessments := by
  have hf : db.trackers.find? (fun x => x.id == entry_id) = some t := by
    unfold get_assessment_tracker_entry_by_id at h
    cases hff : db.trackers.find? (fun x => x.id == entry_id) with
    | none => rw [hff] at h; simp at h
    | some t2 =>
      rw [hff] at h
      simpa using h
  have htid : t.id = entry_id := by
    have := List.find?_some hf
    simpa [beq_iff_eq] using this
  have hred : update_assessment_log db entry_id latest_commit update_logs now
      = (updateTracker db
          { t with
            last_updated := now
            latest_commit := latest_commit
            log := t.log ++ [dictSet (dictSet update_logs "commit"
              (JVal.s latest_commit)) "timestamp"
              (JVal.s (timeStr now))] }, .ok true) := by
    simp only [update_assessment_log, h]
  rw [hred]
  refine ⟨rfl, ?_, ?_, rfl, rfl, rfl⟩
  · unfold get_assessment_tracker_entry_by_id
    rw [trackers_find?_updateTracker, hf]
    simp
  · intro j hj
    unfold get_assessment_tracker_entry_by_id
    rw [trackers_find?_updateTracker]
    cases hfj : db.trackers.find? (fun x => x.id == j) with
    | none => rfl
    | some u =>
      have huid : u.id = j := by
        have := List.find?_some hfj
        simpa [beq_iff_eq] using this
      have hfalse : (u.id == t.id) = false := by
        simp only [beq_iff_eq, huid, htid]
        simpa using hj
      simp only [Option.map_some', hfalse, Bool.false_eq_true, if_false]

/-- C9 witness: a concrete update call stamps the commit and appends the
merged log record while preserving status Under review and the assigned
reviewer. -/
theorem update_log_frame_witness :
    get_assessment_tracker_entry_by_id
      ⟨[], [], [], [⟨11, 42, 1, some 7, "Under review", "abc123", 5,
        [[("status", JVal.s "Initiated")]]⟩]⟩ 11 =
      .ok ⟨11, 42, 1, some 7, "Under review", "abc123", 5,
        [[("status", JVal.s "Initiated")]]⟩ ∧
    get_assessment_tracker_entry_by_id
      (update_assessment_log
        ⟨[], [], [], [⟨11, 42, 1, some 7, "Under review", "abc123", 5,
          [[("status", JVal.s "Initiated")]]⟩]⟩ 11 "def456"
        [("ci", JVal.s "ok")] 9).1 11 =
      .ok ⟨11, 42, 1, some 7, "Under review", "def456", 9,
        [[("status", JVal.s "Initiated")],
         [("ci", JVal.s "ok"), ("commit", JVal.s "def456"),
          ("timestamp", JVal.s (timeStr 9))]]⟩ :=
  ⟨rfl,
   (update_log_frame
      ⟨[], [], [], [⟨11, 42, 1, some 7, "Under review", "abc123", 5,
        [[("status", JVal.s "Initiated")]]⟩]⟩ 11 "def456"
      [("ci", JVal.s "ok")] 9
      ⟨11, 42, 1, some 7, "Under review", "abc123", 5,
        [[("status", JVal.s "Initiated")]]⟩ rfl).2.1⟩

/-- C6: when every earlier approval check passes but the recorded reviewer's
username differs from reviewer_username, approve_assessment fails with the
reviewer-mismatch error and the session — in particular the tracker entry,
its status Under review, log, reviewer_id, latest_commit and last_updated —
is left exactly as it was. -/
theorem approve_reviewer_mismatch (db : DB) (trainee : UserR)
    (reviewer : ReviewerR) (reviewer_username : String)
    (assessment : AssessmentR) (verify_check : TrackerEntry → Bool)
    (now1 now2 : Nat) (t : TrackerEntry) (rid : Nat) (rr : ReviewerR)
    (ru : UserR)
    (h0 : reviewer.user_id ≠ trainee.id)
    (h1 : get_assessment_tracker_entry db trainee.id assessment.id = .ok t)
    (h2 : t.reviewer_id = some rid)
    (h3 : t.status = "Under review")
    (h4 : verify_check t = true)
    (h5 : get_reviewer_by_id db rid = .ok rr)
    (h6 : get_user_by_id db rr.user_id = .ok ru)
    (h7 : ru.username ≠ reviewer_username) :
    approve_assessment db trainee reviewer reviewer_username assessment
      verify_check now1 now2 =
      (db,
       .error "Reviewer is not the same as the reviewer assigned to the assessment.") ∧
    get_assessment_tracker_entry
      (approve_assessment db trainee reviewer reviewer_username assessment
        verify_check now1 now2).1 trainee.id assessment.id = .ok t ∧
    t.status = "Under review" := by
  have hred : approve_assessment db trainee reviewer reviewer_username
      assessment verify_check now1 now2 =
      (db,
       .error "Reviewer is not the same as the reviewer assigned to the assessment.") := by
    simp [approve_assessment, h0, h1, h2, h3, h4, h5, h6, h7]
  rw [hred]
  exact ⟨rfl, h1, h3⟩

/-- C6 witness: reviewer bob (id 7) is recorded on the entry; carol calls
approve under her own username, all earlier checks passing, and gets the
mismatch error with the session unchanged. -/
theorem approve_reviewer_mismatch_witness :
    ("bob" : String) ≠ "carol" ∧
    approve_assessment
      ⟨[⟨1, "alice"⟩, ⟨2, "bob"⟩, ⟨3, "carol"⟩], [⟨7, 2⟩, ⟨9, 3⟩],
       [⟨4, "Python I"⟩],
       [⟨11, 1, 4, some 7, "Under review", "abc", 5, []⟩]⟩
      ⟨1, "alice"⟩ ⟨9, 3⟩ "carol" ⟨4, "Python I"⟩ (fun _ => true) 8 9 =
      (⟨[⟨1, "alice"⟩, ⟨2, "bob"⟩, ⟨3, "carol"⟩], [⟨7, 2⟩, ⟨9, 3⟩],
        [⟨4, "Python I"⟩],
        [⟨11, 1, 4, some 7, "Under review", "abc", 5, []⟩]⟩,
       .error "Reviewer is not the same as the reviewer assigned to the assessment.") :=
  ⟨by decide,
   (approve_reviewer_mismatch
      ⟨[⟨1, "alice"⟩, ⟨2, "bob"⟩, ⟨3, "carol"⟩], [⟨7, 2⟩, ⟨9, 3⟩],
       [⟨4, "Python I"⟩],
       [⟨11, 1, 4, some 7, "Under review", "abc", 5, []⟩]⟩
      ⟨1, "alice"⟩ ⟨9, 3⟩ "carol" ⟨4, "Python I"⟩ (fun _ => true) 8 9
      ⟨11, 1, 4, some 7, "Under review", "abc", 5, []⟩ 7 ⟨7, 2⟩ ⟨2, "bob"⟩
      (by decide) rfl rfl rfl rfl rfl rfl (by decide)).1⟩

/-- C10: every successful approve_assessment call persists the entry with
status Approved and one appended log record whose Reviewer key carries
the id of the reviewer argument passed to the call — the recorded
reviewer_id on the entry never enters the record, since the mismatch check
compares usernames only. -/
theorem approve_log_reviewer_id (db : DB) (trainee : UserR)
    (reviewer : ReviewerR) (reviewer_username : String)
    (assessment : AssessmentR) (verify_check : TrackerEntry → Bool)
    (now1 now2 : Nat) (t : TrackerEntry)
    (h1 : get_assessment_tracker_entry db trainee.id assessment.id = .ok t)
    (hsucc : (approve_assessment db trainee reviewer reviewer_username
      assessment verify_check now1 now2).2 = .ok true) :
    approve_assessment db trainee reviewer reviewer_username assessment
      verify_check now1 now2 =
      (updateTracker db
        { t with
          status := "Approved"
          last_updated := now1
          log := t.log ++ [[("timestamp", JVal.s (timeStr now2)),
            ("status", JVal.s "Approved"),
            ("commit", JVal.s t.latest_commit),
            ("Reviewer", JVal.n reviewer.id)]] }, .ok true) ∧
    dictGet [("timestamp", JVal.s (timeStr now2)),
      ("status", JVal.s "Approved"),
      ("commit", JVal.s t.latest_commit),
      ("Reviewer", JVal.n reviewer.id)] "Reviewer" =
      some (JVal.n reviewer.id) := by
  cases hself : (reviewer.user_id == trainee.id) with
  | true => simp [approve_assessment, hself] at hsucc
  | false =>
    cases hrid : t.reviewer_id with
    | none => simp [approve_assessment, hself, h1, hrid] at hsucc
    | some rid =>
      cases hstat : (t.status != "Under review") with
      | true => simp [approve_assessment, hself, h1, hrid, hstat] at hsucc
      | false =>
        cases hv : verify_check t with
        | false =>
          simp [approve_assessment, hself, h1, hrid, hstat, hv] at hsucc
        | true =>
          cases hgr : get_reviewer_by_id db rid with
          | error e =>
            simp [approve_assessment, hself, h1, hrid, hstat, hv, hgr]
              at hsucc
          | ok rr =>
            cases hgu : get_user_by_id db rr.user_id with
            | error e =>
              simp [approve_assessment, hself, h1, hrid, hstat, hv, hgr,
                hgu] at hsucc
            | ok ru =>
              cases hname : (ru.username != reviewer_username) with
              | true =>
                simp [approve_assessment, hself, h1, hrid, hstat, hv, hgr,
                  hgu, hname] at hsucc
              | false =>
                refine ⟨?_, rfl⟩
                simp [approve_assessment, hself, h1, hrid, hstat, hv, hgr,
                  hgu, hname]

/-- C10 witness: the entry records reviewer 7 (bob) but carol's reviewer row
9 is passed with reviewer_username bob; the call succeeds and the appended
record's Reviewer key carries 9, not the recorded 7. -/
theorem approve_log_reviewer_id_witness :
    (approve_assessment
      ⟨[⟨1, "alice"⟩, ⟨2, "bob"⟩, ⟨3, "carol"⟩], [⟨7, 2⟩, ⟨9, 3⟩],
       [⟨4, "Python I"⟩],
       [⟨11, 1, 4, some 7, "Under review", "abc", 5, []⟩]⟩
      ⟨1, "alice"⟩ ⟨9, 3⟩ "bob" ⟨4, "Python I"⟩ (fun _ => true) 8 9).2 =
      .ok true ∧
    (⟨11, 1, 4, some 7, "Under review", "abc", 5, []⟩ :
      TrackerEntry).reviewer_id ≠ some 9 ∧
    approve_assessment
      ⟨[⟨1, "alice"⟩, ⟨2, "bob"⟩, ⟨3, "carol"⟩], [⟨7, 2⟩, ⟨9, 3⟩],
       [⟨4, "Python I"⟩],
       [⟨11, 1, 4, some 7, "Under review", "abc", 5, []⟩]⟩
      ⟨1, "alice"⟩ ⟨9, 3⟩ "bob" ⟨4, "Python I"⟩ (fun _ => true) 8 9 =
      (updateTracker
        ⟨[⟨1, "alice"⟩, ⟨2, "bob"⟩, ⟨3, "carol"⟩], [⟨7, 2⟩, ⟨9, 3⟩],
         [⟨4, "Python I"⟩],
         [⟨11, 1, 4, some 7, "Under review", "abc", 5, []⟩]⟩
        { (⟨11, 1, 4, some 7, "Under review", "abc", 5, []⟩ : TrackerEntry)
          with
          status := "Approved"
          last_updated := 8
          log := [] ++ [[("timestamp", JVal.s (timeStr 9)),
            ("status", JVal.s "Approved"),
            ("commit", JVal.s "abc"),
            ("Reviewer", JVal.n 9)]] }, .ok true) ∧
    dictGet [("timestamp", JVal.s (timeStr 9)),
      ("status", JVal.s "Approved"),
      ("commit", JVal.s "abc"),
      ("Reviewer", JVal.n 9)] "Reviewer" = some (JVal.n 9) :=
  ⟨rfl, by decide,
   (approve_log_reviewer_id
      ⟨[⟨1, "alice"⟩, ⟨2, "bob"⟩, ⟨3, "carol"⟩], [⟨7, 2⟩, ⟨9, 3⟩],
       [⟨4, "Python I"⟩],
       [⟨11, 1, 4, some 7, "Under review", "abc", 5, []⟩]⟩
      ⟨1, "alice"⟩ ⟨9, 3⟩ "bob" ⟨4, "Python I"⟩ (fun _ => true) 8 9
      ⟨11, 1, 4, some 7, "Under review", "abc", 5, []⟩ rfl rfl).1,
   (approve_log_reviewer_id
      ⟨[⟨1, "alice"⟩, ⟨2, "bob"⟩, ⟨3, "carol"⟩], [⟨7, 2⟩, ⟨9, 3⟩],
       [⟨4, "Python I"⟩],
       [⟨11, 1, 4, some 7, "Under review", "abc", 5, []⟩]⟩
      ⟨1, "alice"⟩ ⟨9, 3⟩ "bob" ⟨4, "Python I"⟩ (fun _ => true) 8 9
      ⟨11, 1, 4, some 7, "Under review", "abc", 5, []⟩ rfl rfl).2⟩

/-- Characterization of a successful tracker lookup by id as a find? hit. -/
theorem get_by_id_ok_iff_find? (db : DB) (j : Nat) (t : TrackerEntry) :
    get_assessment_tracker_entry_by_id db j = .ok t ↔
    db.trackers.find? (fun x => x.id == j) = some t := by
  unfold get_assessment_tracker_entry_by_id
  cases hf : db.trackers.find? (fun x => x.id == j) <;> simp

/-- A tracker row found by id carries that id. -/
theorem get_by_id_ok_id (db : DB) (j : Nat) (t : TrackerEntry)
    (h : get_assessment_tracker_entry_by_id db j = .ok t) : t.id = j := by
  rw [get_by_id_ok_iff_find?] at h
  have := List.find?_some h
  simpa [beq_iff_eq] using this

/-- Reduction of update_assessment_log on an existing entry. -/
theorem update_log_reduce (db : DB) (entry_id : Nat) (latest_commit : String)
    (update_logs : Dict) (now : Nat) (t : TrackerEntry)
    (h : get_assessment_tracker_entry_by_id db entry_id = .ok t) :
    update_assessment_log db entry_id latest_commit update_logs now =
      (updateTracker db
        { t with
          last_updated := now
          latest_commit := latest_commit
          log := t.log ++ [dictSet (dictSet update_logs "commit"
            (JVal.s latest_commit)) "timestamp" (JVal.s (timeStr now))] },
       .ok true) := by
  simp only [update_assessment_log, h]

/-- C1 counterexample: assign_reviewer applied to an entry whose status is
Approved sets the status back to Under review — a backward transition, so
not every exposed operation keeps the status moving forward. -/
theorem assign_reviewer_moves_status_backward :
    statusRank "Under review" < statusRank "Approved" ∧
    (⟨11, 1, 4, some 7, "Approved", "abc", 5, []⟩ :
      TrackerEntry).status = "Approved" ∧
    get_assessment_tracker_entry_by_id
      (assign_reviewer
        ⟨[], [], [], [⟨11, 1, 4, some 7, "Approved", "abc", 5, []⟩]⟩
        ⟨11, 1, 4, some 7, "Approved", "abc", 5, []⟩ ⟨9, "carol"⟩ 8 9).1
      11 =
      .ok ⟨11, 1, 4, some 9, "Under review", "abc", 9,
        [[("reviewer_id", JVal.n 9), ("reviewer_username", JVal.s "carol"),
          ("commit", JVal.s "abc"), ("timestamp", JVal.s (timeStr 9))]]⟩ :=
  ⟨by decide, rfl, rfl⟩

/-- C1 amended: init_assessment_tracker, update_assessment_log and
approve_assessment never move any entry's status backward in the
Initiated, Under review, Approved order (update preserves status exactly);
assign_reviewer, however, unconditionally sets the target entry's status to
Under review, which moves an Approved entry's status backward. -/
theorem tracker_status_monotonic_amended :
    (∀ (db : DB) (req : InitRequest) (uid newId n1 n2 j : Nat)
       (t : TrackerEntry),
       get_assessment_tracker_entry_by_id db j = .ok t →
       ∃ t', get_assessment_tracker_entry_by_id
           (init_assessment_tracker db req uid newId n1 n2).1 j = .ok t' ∧
         statusRank t.status ≤ statusRank t'.status) ∧
    (∀ (db : DB) (entry_id : Nat) (latest_commit : String)
       (update_logs : Dict) (now j : Nat) (t : TrackerEntry),
       get_assessment_tracker_entry_by_id db j = .ok t →
       ∃ t', get_assessment_tracker_entry_by_id
           (update_assessment_log db entry_id latest_commit update_logs
             now).1 j = .ok t' ∧
         statusRank t.status ≤ statusRank t'.status ∧
         t'.status = t.status) ∧
    (∀ (db : DB) (trainee : UserR) (reviewer : ReviewerR)
       (reviewer_username : String) (assessment : AssessmentR)
       (verify_check : TrackerEntry → Bool) (now1 now2 j : Nat)
       (t : TrackerEntry),
       get_assessment_tracker_entry_by_id db j = .ok t →
       ∃ t', get_assessment_tracker_entry_by_id
           (approve_assessment db trainee reviewer reviewer_username
             assessment verify_check now1 now2).1 j = .ok t' ∧
         statusRank t.status ≤ statusRank t'.status) ∧
    (∀ (db : DB) (entry : TrackerEntry) (info : ReviewerInfo) (n1 n2 : Nat)
       (t : TrackerEntry),
       get_assessment_tracker_entry_by_id db entry.id = .ok t →
       ∃ t', get_assessment_tracker_entry_by_id
           (assign_reviewer db entry info n1 n2).1 entry.id = .ok t' ∧
         t'.status = "Under review") := by
  refine ⟨?_, ?_, ?_, ?_⟩
  · intro db req uid newId n1 n2 j t h
    cases ha : get_assessment_by_name db req.assessment_name with
    | error e =>
      have hred : init_assessment_tracker db req uid newId n1 n2 =
          (db, .error e) := by
        simp [init_assessment_tracker, ha]
      rw [hred]
      exact ⟨t, h, le_refl _⟩
    | ok a =>
      cases ht : get_assessment_tracker_entry db uid a.id with
      | ok t2 =>
        have hred : init_assessment_tracker db req uid newId n1 n2 =
            (db, .error "Assessment tracker entry already exists.") := by
          simp [init_assessment_tracker, ha, ht]
        rw [hred]
        exact ⟨t, h, le_refl _⟩
      | error e =>
        by_cases he : e = "Assessment tracker entry unavailable."
        · subst he
          have hred : (init_assessment_tracker db req uid newId n1 n2).1 =
              { db with trackers := db.trackers ++
                [{ id := newId, user_id := uid, assessment_id := a.id,
                   reviewer_id := none, status := "Initiated",
                   latest_commit := req.latest_commit, last_updated := n1,
                   log := [[("status", JVal.s "Initiated"),
                            ("timestamp", JVal.s (timeStr n2)),
                            ("commit", JVal.s req.latest_commit)]] }] } := by
            simp [init_assessment_tracker, ha, ht]
          rw [hred]
          refine ⟨t, ?_, le_refl _⟩
          rw [get_by_id_ok_iff_find?] at h ⊢
          exact find?_append_some _ _ _ _ h
        · have hred : init_assessment_tracker db req uid newId n1 n2 =
              (db, .error e) := by
            simp [init_assessment_tracker, ha, ht, he]
          rw [hred]
          exact ⟨t, h, le_refl _⟩
  · intro db entry_id latest_commit update_logs now j t h
    cases ht : get_assessment_tracker_entry_by_id db entry_id with
    | error e =>
      have hred : update_assessment_log db entry_id latest_commit
          update_logs now = (db, .error e) := by
        simp [update_assessment_log, ht]
      rw [hred]
      exact ⟨t, h, le_refl _, rfl⟩
    | ok t0 =>
      rw [update_log_reduce db entry_id latest_commit update_logs now t0 ht]
      have ht0id : t0.id = entry_id := get_by_id_ok_id _ _ _ ht
      have htid : t.id = j := get_by_id_ok_id _ _ _ h
      rw [get_by_id_ok_iff_find?] at h
      by_cases hc : (t.id == t0.id) = true
      · have hje : j = entry_id := by
          rw [beq_iff_eq] at hc
          rw [← htid, hc, ht0id]
        subst hje
        have hteq : t = t0 := by
          rw [get_by_id_ok_iff_find?] at ht
          rw [← ht0id] at h ht
          rw [h] at ht
          exact (Option.some.injEq _ _).mp ht
        subst hteq
        refine ⟨{ t with
            last_updated := now
            latest_commit := latest_commit
            log := t.log ++ [dictSet (dictSet update_logs "commit"
              (JVal.s latest_commit)) "timestamp"
              (JVal.s (timeStr now))] }, ?_, le_refl _, rfl⟩
        rw [get_by_id_ok_iff_find?, trackers_find?_updateTracker, h]
        simp
      · refine ⟨t, ?_, le_refl _, rfl⟩
        rw [get_by_id_ok_iff_find?, trackers_find?_updateTracker, h]
        simp only [Option.map_some']
        rw [if_neg hc]
  · intro db trainee reviewer reviewer_username assessment verify_check
      n1 n2 j t h
    cases hself : (reviewer.user_id == trainee.id) with
    | true =>
      have hred : approve_assessment db trainee reviewer reviewer_username
          assessment verify_check n1 n2 =
          (db, .error "Reviewer cannot be the same as the trainee.") := by
        simp [approve_assessment, hself]
      rw [hred]
      exact ⟨t, h, le_refl _⟩
    | false =>
      cases hentry : get_assessment_tracker_entry db trainee.id
          assessment.id with
      | error e =>
        have hred : approve_assessment db trainee reviewer reviewer_username
            assessment verify_check n1 n2 = (db, .error e) := by
          simp [approve_assessment, hself, hentry]
        rw [hred]
        exact ⟨t, h, le_refl _⟩
      | ok t0 =>
        cases hrid : t0.reviewer_id with
        | none =>
          have hred : approve_assessment db trainee reviewer
              reviewer_username assessment verify_check n1 n2 =
              (db, .error "No reviewer is assigned to the assessment.") := by
            simp [approve_assessment, hself, hentry, hrid]
          rw [hred]
          exact ⟨t, h, le_refl _⟩
        | some rid =>
          cases hstat : (t0.status != "Under review") with
          | true =>
            have hred : approve_assessment db trainee reviewer
                reviewer_username assessment verify_check n1 n2 =
                (db, .error "Assessment is not under review.") := by
              simp [approve_assessment, hself, hentry, hrid, hstat]
            rw [hred]
            exact ⟨t, h, le_refl _⟩
          | false =>
            cases hv : verify_check t0 with
            | false =>
              have hred : approve_assessment db trainee reviewer
                  reviewer_username assessment verify_check n1 n2 =
                  (db, .error "Last commit checks failed.") := by
                simp [approve_assessment, hself, hentry, hrid, hstat, hv]
              rw [hred]
              exact ⟨t, h, le_refl _⟩
            | true =>
              cases hgr : get_reviewer_by_id db rid with
              | error e =>
                have hred : approve_assessment db trainee reviewer
                    reviewer_username assessment verify_check n1 n2 =
                    (db, .error e) := by
                  simp [approve_assessment, hself, hentry, hrid, hstat, hv,
                    hgr]
                rw [hred]
                exact ⟨t, h, le_refl _⟩
              | ok rr =>
                cases hgu : get_user_by_id db rr.user_id with
                | error e =>
                  have hred : approve_assessment db trainee reviewer
                      reviewer_username assessment verify_check n1 n2 =
                      (db, .error e) := by
                    simp [approve_assessment, hself, hentry, hrid, hstat,
                      hv, hgr, hgu]
                  rw [hred]
                  exact ⟨t, h, le_refl _⟩
                | ok ru =>
                  cases hname : (ru.username != reviewer_username) with
                  | true =>
                    have hred : approve_assessment db trainee reviewer
                        reviewer_username assessment verify_check n1 n2 =
                        (db,
                         .error "Reviewer is not the same as the reviewer assigned to the assessment.") := by
                      simp [approve_assessment, hself, hentry, hrid, hstat,
                        hv, hgr, hgu, hname]
                    rw [hred]
                    exact ⟨t, h, le_refl _⟩
                  | false =>
                    have hred : approve_assessment db trainee reviewer
                        reviewer_username assessment verify_check n1 n2 =
                        (updateTracker db
                          { t0 with
                            status := "Approved"
                            last_updated := n1
                            log := t0.log ++
                              [[("timestamp", JVal.s (timeStr n2)),
                                ("status", JVal.s "Approved"),
                                ("commit", JVal.s t0.latest_commit),
                                ("Reviewer", JVal.n reviewer.id)]] },
                         .ok true) := by
                      simp [approve_assessment, hself, hentry, hrid, hstat,
                        hv, hgr, hgu, hname]
                    rw [hred]
                    rw [get_by_id_ok_iff_find?] at h
                    by_cases hc : (t.id == t0.id) = true
                    · refine ⟨{ t0 with
                          status := "Approved"
                          last_updated := n1
                          log := t0.log ++
                            [[("timestamp", JVal.s (timeStr n2)),
                              ("status", JVal.s "Approved"),
                              ("commit", JVal.s t0.latest_commit),
                              ("Reviewer", JVal.n reviewer.id)]] }, ?_, ?_⟩
                      · rw [get_by_id_ok_iff_find?,
                          trackers_find?_updateTracker, h]
                        simp only [Option.map_some']
                        rw [if_pos hc]
                      · exact statusRank_le_two _
                    · refine ⟨t, ?_, le_refl _⟩
                      rw [get_by_id_ok_iff_find?,
                        trackers_find?_updateTracker, h]
                      simp only [Option.map_some']
                      rw [if_neg hc]
  · intro db entry info n1 n2 t h
    have htid : t.id = entry.id := get_by_id_ok_id _ _ _ h
    rw [get_by_id_ok_iff_find?] at h
    unfold assign_reviewer
    dsimp only
    have hfetch : get_assessment_tracker_entry_by_id
        (updateTracker db
          { entry with
            reviewer_id := some info.reviewer_id
            status := "Under review"
            last_updated := n1 }) entry.id = .ok
        { entry with
          reviewer_id := some info.reviewer_id
          status := "Under review"
          last_updated := n1 } := by
      rw [get_by_id_ok_iff_find?, trackers_find?_updateTracker, h]
      simp only [Option.map_some']
      rw [if_pos (by simpa [beq_iff_eq] using htid)]
    rw [update_log_reduce _ _ _ _ _ _ hfetch]
    refine ⟨{ ({ entry with
        reviewer_id := some info.reviewer_id
        status := "Under review"
        last_updated := n1 } : TrackerEntry) with
        last_updated := n2
        latest_commit := entry.latest_commit
        log := ({ entry with
          reviewer_id := some info.reviewer_id
          status := "Under review"
          last_updated := n1 } : TrackerEntry).log ++
          [dictSet (dictSet (reviewerInfoDict info) "commit"
            (JVal.s entry.latest_commit)) "timestamp"
            (JVal.s (timeStr n2))] }, ?_, rfl⟩
    rw [get_by_id_ok_iff_find?, trackers_find?_updateTracker]
    rw [(get_by_id_ok_iff_find? _ _ _).mp hfetch]
    simp

/-- C1 amended witness: each operation instantiated on a concrete session
holding one Approved entry with id 11; assign_reviewer yields an entry whose
status is Under review. -/
theorem tracker_status_monotonic_amended_witness :
    (∃ t', get_assessment_tracker_entry_by_id
        (init_assessment_tracker
          ⟨[], [], [], [⟨11, 1, 4, some 7, "Approved", "abc", 5, []⟩]⟩
          ⟨"u", "A", "c"⟩ 1 12 0 0).1 11 = .ok t' ∧
      statusRank (⟨11, 1, 4, some 7, "Approved", "abc", 5, []⟩ :
        TrackerEntry).status ≤ statusRank t'.status) ∧
    (∃ t', get_assessment_tracker_entry_by_id
        (update_assessment_log
          ⟨[], [], [], [⟨11, 1, 4, some 7, "Approved", "abc", 5, []⟩]⟩
          99 "c" [] 0).1 11 = .ok t' ∧
      statusRank (⟨11, 1, 4, some 7, "Approved", "abc", 5, []⟩ :
        TrackerEntry).status ≤ statusRank t'.status ∧
      t'.status = (⟨11, 1, 4, some 7, "Approved", "abc", 5, []⟩ :
        TrackerEntry).status) ∧
    (∃ t', get_assessment_tracker_entry_by_id
        (approve_assessment
          ⟨[], [], [], [⟨11, 1, 4, some 7, "Approved", "abc", 5, []⟩]⟩
          ⟨1, "a"⟩ ⟨2, 1⟩ "x" ⟨4, "A"⟩ (fun _ => true) 0 0).1 11 =
        .ok t' ∧
      statusRank (⟨11, 1, 4, some 7, "Approved", "abc", 5, []⟩ :
        TrackerEntry).status ≤ statusRank t'.status) ∧
    (∃ t', get_assessment_tracker_entry_by_id
        (assign_reviewer
          ⟨[], [], [], [⟨11, 1, 4, some 7, "Approved", "abc", 5, []⟩]⟩
          ⟨11, 1, 4, some 7, "Approved", "abc", 5, []⟩ ⟨9, "carol"⟩ 8 9).1
        11 = .ok t' ∧
      t'.status = "Under review") :=
  ⟨tracker_status_monotonic_amended.1
     ⟨[], [], [], [⟨11, 1, 4, some 7, "Approved", "abc", 5, []⟩]⟩
     ⟨"u", "A", "c"⟩ 1 12 0 0 11 _ rfl,
   tracker_status_monotonic_amended.2.1
     ⟨[], [], [], [⟨11, 1, 4, some 7, "Approved", "abc", 5, []⟩]⟩
     99 "c" [] 0 11 _ rfl,
   tracker_status_monotonic_amended.2.2.1
     ⟨[], [], [], [⟨11, 1, 4, some 7, "Approved", "abc", 5, []⟩]⟩
     ⟨1, "a"⟩ ⟨2, 1⟩ "x" ⟨4, "A"⟩ (fun _ => true) 0 0 11 _ rfl,
   tracker_status_monotonic_amended.2.2.2
     ⟨[], [], [], [⟨11, 1, 4, some 7, "Approved", "abc", 5, []⟩]⟩
     ⟨11, 1, 4, some 7, "Approved", "abc", 5, []⟩ ⟨9, "carol"⟩ 8 9 _ rfl⟩

/-- The record index threaded through the sync loop is irrelevant when the
store never fails. -/
theorem sync_badges_go_none_index (catalog : List ExtRec) (i i' : Nat)
    (db : List BadgeRow) :
    sync_badges_go (fun _ => none) i catalog db =
      sync_badges_go (fun _ => none) i' catalog db := by
  induction catalog generalizing i i' db with
  | nil => rfl
  | cons r rest ih =>
    simp only [sync_badges_go]
    cases hn : dictGet r "name" with
    | none => rfl
    | some nameVal =>
      dsimp only
      cases hdb : (db.find? (badgeNameMatches nameVal)).isNone with
      | true => simp only [hdb, if_true]; exact ih _ _ _
      | false => simp only [hdb, Bool.false_eq_true, if_false]; exact ih _ _ _

/-- Persisted state of a sync run whose first store failure hits the record
at offset k: every record before k is already committed, the failing
record's transaction is rolled back, and the error is re-raised. -/
theorem sync_badges_go_fail (failAt : Nat → Option String)
    (catalog : List ExtRec) (db : List BadgeRow) (i k : Nat) (msg : String)
    (hk : k < catalog.length)
    (hbefore : ∀ j, j < k → failAt (i + j) = none)
    (hfail : failAt (i + k) = some msg)
    (hnames : ∀ r ∈ catalog, (dictGet r "name").isSome) :
    sync_badges_go failAt i catalog db =
      ((sync_badges_go (fun _ => none) 0 (catalog.take k) db).1, some msg) := by
  induction k generalizing catalog db i with
  | zero =>
    cases catalog with
    | nil => simp at hk
    | cons r rest =>
      obtain ⟨nameVal, hn⟩ := Option.isSome_iff_exists.mp
        (hnames r (List.mem_cons_self r rest))
      rw [Nat.add_zero] at hfail
      simp only [sync_badges_go, hn, hfail, List.take_zero]
  | succ k ih =>
    cases catalog with
    | nil => simp at hk
    | cons r rest =>
      obtain ⟨nameVal, hn⟩ := Option.isSome_iff_exists.mp
        (hnames r (List.mem_cons_self r rest))
      have h0 : failAt i = none := by
        have := hbefore 0 (Nat.succ_pos k)
        simpa using this
      have hbefore' : ∀ j, j < k → failAt (i + 1 + j) = none := by
        intro j hj
        have := hbefore (j + 1) (by omega)
        rwa [show i + (j + 1) = i + 1 + j by omega] at this
      have hfail' : failAt (i + 1 + k) = some msg := by
        rwa [show i + 1 + k = i + (k + 1) by omega]
      have hnames' : ∀ x ∈ rest, (dictGet x "name").isSome := by
        intro x hx
        exact hnames x (List.mem_cons_of_mem r hx)
      have hk' : k < rest.length := by simpa using Nat.lt_of_succ_lt_succ hk
      simp only [sync_badges_go, hn, h0, List.take_succ_cons]
      cases hdb : (db.find? (badgeNameMatches nameVal)).isNone with
      | true =>
        simp only [hdb, if_true]
        rw [ih rest (db ++ [wrangleFields r]) (i + 1) hk' hbefore' hfail'
          hnames']
        rw [sync_badges_go_none_index (rest.take k) 0 1
          (db ++ [wrangleFields r])]
      | false =>
        simp only [hdb, Bool.false_eq_true, if_false]
        rw [ih rest _ (i + 1) hk' hbefore' hfail' hnames']
        rw [sync_badges_go_none_index (rest.take k) 0 1 _]

/-- C2 counterexample: a catalog of two fresh records with the store failing
on the second record's commit leaves the first record's badge persisted —
the badge table is not rolled back to its pre-call (empty) state, while the
error is re-raised. -/
theorem sync_badges_not_atomic :
    (sync_badges
      (fun i => if i == 1 then some "database commit failed" else none)
      [[("name", JVal.s "Badge A"), ("entityId", JVal.s "E0")],
       [("name", JVal.s "Badge B"), ("entityId", JVal.s "E1")]] []).2 =
      some "database commit failed" ∧
    (sync_badges
      (fun i => if i == 1 then some "database commit failed" else none)
      [[("name", JVal.s "Badge A"), ("entityId", JVal.s "E0")],
       [("name", JVal.s "Badge B"), ("entityId", JVal.s "E1")]] []).1 =
      [[("name", FieldVal.s "Badge A"), ("entityId", FieldVal.s "E0")]] ∧
    [[("name", FieldVal.s "Badge A"), ("entityId", FieldVal.s "E0")]] ≠
      ([] : List BadgeRow) :=
  ⟨rfl, rfl, by decide⟩

/-- C2 amended: sync_badges commits after every record, so a store failure
at the record at offset k rolls back only that record's in-flight
transaction and re-raises the error; the records before k stay persisted —
the stored badge set equals the result of a clean sync of the catalog's
first k records, not the pre-call state. -/
theorem sync_badges_partial_persistence (failAt : Nat → Option String)
    (catalog : List ExtRec) (db : List BadgeRow) (k : Nat) (msg : String)
    (hk : k < catalog.length)
    (hbefore : ∀ j, j < k → failAt j = none)
    (hfail : failAt k = some msg)
    (hnames : ∀ r ∈ catalog, (dictGet r "name").isSome) :
    sync_badges failAt catalog db =
      ((sync_badges (fun _ => none) (catalog.take k) db).1, some msg) := by
  unfold sync_badges
  exact sync_badges_go_fail failAt catalog db 0 k msg hk
    (by intro j hj; simpa using hbefore j hj) (by simpa using hfail) hnames

/-- C2 amended witness: the two-record catalog with the store failing on the
second record persists exactly the clean sync of the first record. -/
theorem sync_badges_partial_persistence_witness :
    (0 : Nat) < 1 ∧ 1 < 2 ∧
    sync_badges
      (fun i => if i == 1 then some "database commit failed" else none)
      [[("name", JVal.s "Badge A"), ("entityId", JVal.s "E0")],
       [("name", JVal.s "Badge B"), ("entityId", JVal.s "E1")]] [] =
      ((sync_badges (fun _ => none)
        ([[("name", JVal.s "Badge A"), ("entityId", JVal.s "E0")],
          [("name", JVal.s "Badge B"), ("entityId", JVal.s "E1")]].take 1)
        []).1, some "database commit failed") :=
  ⟨by decide, by decide,
   sync_badges_partial_persistence
     (fun i => if i == 1 then some "database commit failed" else none)
     [[("name", JVal.s "Badge A"), ("entityId", JVal.s "E0")],
      [("name", JVal.s "Badge B"), ("entityId", JVal.s "E1")]] [] 1
     "database commit failed" (by decide)
     (by decide) rfl
     (by decide)⟩

/-- C3 counterexample: a local badge with the record's external entity id
E1 exists, yet sync_badges does not update it in place: because the upsert
is keyed on name, a second row with the same entityId is inserted and the
existing row is left untouched. -/
theorem sync_badges_upsert_not_by_entityId :
    rowGet [("entityId", FieldVal.s "E1"), ("name", FieldVal.s "Old Name")]
      "entityId" = some (FieldVal.s "E1") ∧
    dictGet [("name", JVal.s "New Name"), ("entityId", JVal.s "E1")]
      "entityId" = some (JVal.s "E1") ∧
    sync_badges (fun _ => none)
      [[("name", JVal.s "New Name"), ("entityId", JVal.s "E1")]]
      [[("entityId", FieldVal.s "E1"), ("name", FieldVal.s "Old Name")]] =
      ([[("entityId", FieldVal.s "E1"), ("name", FieldVal.s "Old Name")],
        [("name", FieldVal.s "New Name"), ("entityId", FieldVal.s "E1")]],
       none) :=
  ⟨rfl, rfl, rfl⟩

/-- C3 amended: sync_badges upserts each catalog record keyed by the
record's name field: when no stored badge's name equals the record's name a
new row holding the wrangled fields is inserted, and otherwise every stored
badge whose name matches is updated in place with those fields (no row
added or removed); a badge sharing only the external entity id is not
matched. -/
theorem sync_badges_upsert_by_name (db : List BadgeRow) (badge : ExtRec)
    (nameVal : JVal) (hn : dictGet badge "name" = some nameVal) :
    ((db.find? (badgeNameMatches nameVal)).isNone = true →
      sync_badges (fun _ => none) [badge] db =
        (db ++ [wrangleFields badge], none)) ∧
    ((db.find? (badgeNameMatches nameVal)).isNone = false →
      sync_badges (fun _ => none) [badge] db =
        (db.map (fun row => if badgeNameMatches nameVal row then
          rowMerge row (wrangleFields badge) else row), none) ∧
      (db.map (fun row => if badgeNameMatches nameVal row then
        rowMerge row (wrangleFields badge) else row)).length =
        db.length) := by
  constructor
  · intro hmiss
    simp [sync_badges, sync_badges_go, hn, hmiss]
  · intro hhit
    refine ⟨?_, by simp⟩
    simp [sync_badges, sync_badges_go, hn, hhit]

/-- C3 amended witness: a record named Badge A updates the like-named stored
row in place, and a record named Badge C is inserted as a new row. -/
theorem sync_badges_upsert_by_name_witness :
    sync_badges (fun _ => none)
      [[("name", JVal.s "Badge A"), ("issuer", JVal.s "X")]]
      [[("name", FieldVal.s "Badge A"), ("issuer", FieldVal.s "Old")]] =
      ([[("name", FieldVal.s "Badge A"), ("issuer", FieldVal.s "X")]],
       none) ∧
    sync_badges (fun _ => none)
      [[("name", JVal.s "Badge C"), ("issuer", JVal.s "X")]]
      [[("name", FieldVal.s "Badge A"), ("issuer", FieldVal.s "Old")]] =
      ([[("name", FieldVal.s "Badge A"), ("issuer", FieldVal.s "Old")],
        [("name", FieldVal.s "Badge C"), ("issuer", FieldVal.s "X")]],
       none) := by
  constructor
  · have h := (sync_badges_upsert_by_name
      [[("name", FieldVal.s "Badge A"), ("issuer", FieldVal.s "Old")]]
      [("name", JVal.s "Badge A"), ("issuer", JVal.s "X")]
      (JVal.s "Badge A") rfl).2 rfl
    rw [h.1]
    rfl
  · have h := (sync_badges_upsert_by_name
      [[("name", FieldVal.s "Badge A"), ("issuer", FieldVal.s "Old")]]
      [("name", JVal.s "Badge C"), ("issuer", JVal.s "X")]
      (JVal.s "Badge C") rfl).1 rfl
    rw [h]
    rfl

/-- C8: each string-coerced field is first tried against the
with-fractional-seconds format, then — only on failure — against the
without-fractional-seconds format, and when both parses fail it is stored
as the plain string; field conversion is total, so a sync whose store never
fails and whose records all carry a name key reports no error. -/
theorem sync_field_parse_chain :
    (∀ (s : String) (d : DateTime), strptimeFrac s = some d →
      convertField s = .dt d) ∧
    (∀ (s : String) (d : DateTime), strptimeFrac s = none →
      strptimeNoFrac s = some d → convertField s = .dt d) ∧
    (∀ s : String, strptimeFrac s = none → strptimeNoFrac s = none →
      convertField s = .s s) ∧
    (∀ badge : ExtRec, wrangleFields badge =
      badge.map (fun p => (p.1, convertField (pyStr p.2)))) ∧
    (∀ (catalog : List ExtRec) (db : List BadgeRow),
      (∀ r ∈ catalog, (dictGet r "name").isSome) →
      (sync_badges (fun _ => none) catalog db).2 = none) := by
  refine ⟨?_, ?_, ?_, ?_, ?_⟩
  · intro s d h
    simp [convertField, h]
  · intro s d h1 h2
    simp [convertField, h1, h2]
  · intro s h1 h2
    simp [convertField, h1, h2]
  · intro badge
    rfl
  · intro catalog
    unfold sync_badges
    generalize 0 = i
    induction catalog generalizing i with
    | nil => intro db _; rfl
    | cons r rest ih =>
      intro db hn
      obtain ⟨nameVal, hv⟩ := Option.isSome_iff_exists.mp
        (hn r (List.mem_cons_self r rest))
      simp only [sync_badges_go, hv]
      cases hdb : (db.find? (badgeNameMatches nameVal)).isNone with
      | true =>
        simp only [hdb, if_true]
        exact ih (i + 1) _ (fun x hx => hn x (List.mem_cons_of_mem r hx))
      | false =>
        simp only [hdb, Bool.false_eq_true, if_false]
        exact ih (i + 1) _ (fun x hx => hn x (List.mem_cons_of_mem r hx))

/-- C8 witness: a fractional timestamp parses under the first format, a
non-fractional one falls through to the second, a plain word stays a
string, and a clean sync over a fresh record reports no error. -/
theorem sync_field_parse_chain_witness :
    strptimeFrac "2016-05-17T01:04:11.026014Z" =
      some ⟨2016, 5, 17, 1, 4, 11, 26014⟩ ∧
    convertField "2016-05-17T01:04:11.026014Z" =
      .dt ⟨2016, 5, 17, 1, 4, 11, 26014⟩ ∧
    strptimeFrac "2016-05-17T01:04:11Z" = none ∧
    strptimeNoFrac "2016-05-17T01:04:11Z" =
      some ⟨2016, 5, 17, 1, 4, 11, 0⟩ ∧
    convertField "2016-05-17T01:04:11Z" =
      .dt ⟨2016, 5, 17, 1, 4, 11, 0⟩ ∧
    strptimeFrac "hello" = none ∧
    strptimeNoFrac "hello" = none ∧
    convertField "hello" = .s "hello" ∧
    (sync_badges (fun _ => none)
      [[("name", JVal.s "Badge A"), ("createdAt",
        JVal.s "2016-05-17T01:04:11.026014Z")]] []).2 = none :=
  ⟨rfl,
   sync_field_parse_chain.1 "2016-05-17T01:04:11.026014Z"
     ⟨2016, 5, 17, 1, 4, 11, 26014⟩ rfl,
   rfl, rfl,
   sync_field_parse_chain.2.1 "2016-05-17T01:04:11Z"
     ⟨2016, 5, 17, 1, 4, 11, 0⟩ rfl rfl,
   rfl, rfl,
   sync_field_parse_chain.2.2.1 "hello" rfl rfl,
   sync_field_parse_chain.2.2.2.2
     [[("name", JVal.s "Badge A"), ("createdAt",
       JVal.s "2016-05-17T01:04:11.026014Z")]] []
     (by intro r hr; simp at hr; subst hr; rfl)⟩

end SkillApp
